import Mathlib

/-!
Shallow embedding of the core of `distill-cli` (`src/transcribe.rs`):
the transcription-job orchestrator (`transcribe_audio`) and the
transcript reconstructor (`convert_transcribe_json`).

Modelling choices:
* `serde_json::Value` is modelled by the inductive `JValue`; serde's
  non-panicking `Index` impls (`v["key"]`, `v[i]`) are `jindexStr` /
  `jindexNat`, which return `JValue.null` on any mismatch, exactly as
  serde does.  `as_str` / `as_array` are `asStr` / `asArray`.
* The initial `serde_json::from_str` parse is modelled by handing
  `convert_transcribe_json` an `Option JValue`: `none` stands for a
  byte string that fails to parse (the `with_context` error path),
  `some v` for a successful parse producing `v`.
* A Rust `panic!` (from `Option::unwrap` on `None`) is a distinct
  outcome `ConvResult.panicked`, never merged with the `anyhow` error
  path `ConvResult.parseError`.
* The AWS SDK calls of `transcribe_audio` are modelled by passing the
  successive `get_transcription_job` responses as a list of
  `JobDetails` records; the fetched transcript body is an
  `Option JValue` as above.  `tokio::time::sleep` durations are
  recorded (in seconds) instead of executed, and `println!` output is
  recorded as a list of printed strings.
-/

namespace DistillCli

/-- Model of `serde_json::Value`. -/
inductive JValue where
  | null
  | bool (b : Bool)
  | num (n : Int)
  | str (s : String)
  | arr (xs : List JValue)
  | obj (fields : List (String × JValue))

/-- serde's `Index<&str>`: object-field lookup, `Null` on any mismatch. -/
def jindexStr (v : JValue) (key : String) : JValue :=
  match v with
  | .obj fields =>
    match fields.find? (fun p => p.1 = key) with
    | some p => p.2
    | none => .null
  | _ => .null

/-- serde's `Index<usize>`: array element, `Null` on any mismatch. -/
def jindexNat (v : JValue) (i : Nat) : JValue :=
  match v with
  | .arr xs => xs.getD i .null
  | _ => .null

/-- `Value::as_str`. -/
def asStr : JValue → Option String
  | .str s => some s
  | _ => none

/-- `Value::as_array`. -/
def asArray : JValue → Option (List JValue)
  | .arr xs => some xs
  | _ => none

/-- `item["type"].as_str()`. -/
def itemType (item : JValue) : Option String :=
  asStr (jindexStr item "type")

/-- `item["alternatives"][0]["content"].as_str()`. -/
def itemContent (item : JValue) : Option String :=
  asStr (jindexStr (jindexNat (jindexStr item "alternatives") 0) "content")

/-- `item["speaker_label"].as_str()`. -/
def itemSpeaker (item : JValue) : Option String :=
  asStr (jindexStr item "speaker_label")

/-- Rust's `str::trim`: strip whitespace from both ends.  Modelled over
the character list (this keeps it computable by the kernel; Lean's own
`String.trim` is byte-position based and does not reduce). -/
def rustTrim (s : String) : String :=
  ⟨((s.data.dropWhile Char.isWhitespace).reverse.dropWhile
      Char.isWhitespace).reverse⟩

/-- The running state of the reconstruction loop: `final_transcript`,
`current_speaker`, `current_text` in `convert_transcribe_json`. -/
structure ConvState where
  final_transcript : String
  current_speaker : Option String
  current_text : String
deriving DecidableEq, Repr

/-- How an iteration of the reconstruction loop can abort: a Rust panic
(`unwrap` on `None`) or an `anyhow` error (`ok_or_else`). -/
inductive ConvErr where
  | panicked (msg : String)
  | parseErr (msg : String)
deriving DecidableEq, Repr

/-- The message of Rust's `Option::unwrap` panic. -/
def unwrapMsg : String := "called Option::unwrap() on a None value"

/-- One iteration of the `for item in ...` loop of
`convert_transcribe_json` (src/transcribe.rs lines 271-309). -/
def processItem (st : ConvState) (item : JValue) : Except ConvErr ConvState :=
  match itemType item with
  | none => .error (.panicked unwrapMsg)
  | some ty =>
    match ty with
    | "pronunciation" =>
      match itemContent item with
      | none => .error (.parseErr "Missing pronunciation content data")
      | some content =>
        match itemSpeaker item with
        | none => .error (.parseErr "Missing 'speaker_label' data")
        | some speaker_label =>
          match st.current_speaker with
          | some current_speaker_label =>
            if current_speaker_label ≠ speaker_label then
              let ft :=
                if st.current_text ≠ "" then
                  st.final_transcript ++ current_speaker_label ++ ": " ++
                    rustTrim st.current_text ++ "\n"
                else st.final_transcript
              .ok ⟨ft, some speaker_label, content⟩
            else
              .ok ⟨st.final_transcript, st.current_speaker,
                st.current_text ++ " " ++ content⟩
          | none => .ok ⟨st.final_transcript, some speaker_label, content⟩
    | "punctuation" =>
      match itemContent item with
      | none => .error (.parseErr "Missing punctuation content data")
      | some content =>
        .ok ⟨st.final_transcript, st.current_speaker, st.current_text ++ content⟩
    | _ => .ok st

/-- The whole `for` loop, iterated left to right. -/
def processItems (st : ConvState) : List JValue → Except ConvErr ConvState
  | [] => .ok st
  | item :: rest =>
    match processItem st item with
    | .error e => .error e
    | .ok st' => processItems st' rest

/-- Observable outcome of `convert_transcribe_json`: a panic, an
`anyhow::Error` (ParseError), or `Ok(transcript)`. -/
inductive ConvResult where
  | panicked (msg : String)
  | parseError (msg : String)
  | ok (transcript : String)
deriving DecidableEq, Repr

/-- `convert_transcribe_json` (src/transcribe.rs lines 264-318).
The argument is the outcome of `serde_json::from_str`: `none` models a
malformed byte string (the `with_context` error), `some v` a parsed
document `v`. -/
def convert_transcribe_json (parsed : Option JValue) : ConvResult :=
  match parsed with
  | none => .parseError "Failed to parse JSON"
  | some v =>
    match asArray (jindexStr (jindexStr v "results") "items") with
    | none => .panicked unwrapMsg
    | some items =>
      match processItems ⟨"", none, ""⟩ items with
      | .error (.panicked m) => .panicked m
      | .error (.parseErr m) => .parseError m
      | .ok st =>
        match st.current_speaker with
        | some speaker_label =>
          if st.current_text ≠ "" then
            .ok (st.final_transcript ++ speaker_label ++ ": " ++
              rustTrim st.current_text ++ "\n")
          else .ok st.final_transcript
        | none => .ok st.final_transcript

/-- `aws_sdk_transcribe::types::MediaFormat` (the variants used). -/
inductive MediaFormat where
  | amr | flac | m4a | mp3 | mp4 | ogg | wav | webm
deriving DecidableEq, Repr

/-- Outcome of `infer::get_from_path`: a detected MIME type
(`Ok(Some(kind))`), no detection (`Ok(None)`), or an I/O error. -/
inductive DetectOutcome where
  | found (mime : String)
  | notFound
  | ioErr (msg : String)
deriving DecidableEq, Repr

/-- The first ten arms of the MIME-type match in `transcribe_audio`
(src/transcribe.rs lines 30-39). -/
def recognizedMime (mime : String) : Option MediaFormat :=
  match mime with
  | "audio/amr" => some .amr
  | "audio/flac" => some .flac
  | "audio/m4a" => some .m4a
  | "audio/mpeg" => some .mp3
  | "audio/mp4" => some .mp4
  | "video/mp4" => some .mp4
  | "audio/ogg" => some .ogg
  | "audio/opus" => some .ogg
  | "audio/wav" => some .wav
  | "audio/webm" => some .webm
  | _ => none

/-- The `media_format` resolution of `transcribe_audio`
(src/transcribe.rs lines 28-62): detected MIME type first, then the
`.mp3`-extension fallback, else `bail!`. -/
def mediaFormatOf (detect : DetectOutcome) (ext : Option String) :
    Except String MediaFormat :=
  match detect with
  | .found mime =>
    match recognizedMime mime with
    | some f => .ok f
    | none =>
      match ext with
      | some "mp3" => .ok .mp3
      | _ => .error ("\nUnsupported media format: " ++ mime)
  | .notFound =>
    match ext with
    | some "mp3" => .ok .mp3
    | _ => .error "\nUnable to determine media format from file extension"
  | .ioErr msg => .error ("\nError determining media format: " ++ msg)

/-- `aws_sdk_transcribe::types::LanguageCode` (the variants named in the
match of src/transcribe.rs lines 70-178). -/
inductive LanguageCode where
  | abGe | afZa | arAe | arSa | hyAm | astEs | azAz | baRu | euEs | beBy
  | bnIn | bsBa | bgBg | caEs | ckbIr | ckbIq | zhCn | zhTw | hrHr | csCz
  | daDk | nlNl | enAu | enGb | enIn | enIe | enNz | enAb | enZa | enUs
  | enWl | etEt | faIr | fiFi | frFr | frCa | glEs | kaGe | deDe | deCh
  | elGr | guIn | haNg | heIl | hiIn | huHu | isIs | idId | itIt | jaJp
  | kabDz | knIn | kkKz | rwRw | koKr | kyKg | lvLv | ltLt | lgIn | mkMk
  | msMy | mlIn | mtMt | mrIn | mhrRu | mnMn | noNo | orIn | psAf | plPl
  | ptPt | ptBr | paIn | roRo | ruRu | srRs | siLk | skSk | slSi | soSo
  | esEs | esUs | suId | swKe | swBi | swRw | swTz | swUg | svSe | tlPh
  | taIn | ttRu | teIn | thTh | trTr | ukUa | ugCn | uzUz | viVn | cyWl
  | woSn | zuZa
deriving DecidableEq, Repr

/-- The `language_code_enum` match of `transcribe_audio`
(src/transcribe.rs lines 70-178); the catch-all arm `bail!`s, modelled
as `none`. -/
def languageCodeEnum (language_code : String) : Option LanguageCode :=
  match language_code with
  | "ab-GE" => some .abGe
  | "af-ZA" => some .afZa
  | "ar-AE" => some .arAe
  | "ar-SA" => some .arSa
  | "hy-AM" => some .hyAm
  | "ast-ES" => some .astEs
  | "az-AZ" => some .azAz
  | "ba-RU" => some .baRu
  | "eu-ES" => some .euEs
  | "be-BY" => some .beBy
  | "bn-IN" => some .bnIn
  | "bs-BA" => some .bsBa
  | "bg-BG" => some .bgBg
  | "ca-ES" => some .caEs
  | "ckb-IR" => some .ckbIr
  | "ckb-IQ" => some .ckbIq
  | "zh-CN" => some .zhCn
  | "zh-TW" => some .zhTw
  | "hr-HR" => some .hrHr
  | "cs-CZ" => some .csCz
  | "da-DK" => some .daDk
  | "nl-NL" => some .nlNl
  | "en-AU" => some .enAu
  | "en-GB" => some .enGb
  | "en-IN" => some .enIn
  | "en-IE" => some .enIe
  | "en-NZ" => some .enNz
  | "en-AB" => some .enAb
  | "en-ZA" => some .enZa
  | "en-US" => some .enUs
  | "en-WL" => some .enWl
  | "et-ET" => some .etEt
  | "fa-IR" => some .faIr
  | "fi-FI" => some .fiFi
  | "fr-FR" => some .frFr
  | "fr-CA" => some .frCa
  | "gl-ES" => some .glEs
  | "ka-GE" => some .kaGe
  | "de-DE" => some .deDe
  | "de-CH" => some .deCh
  | "el-GR" => some .elGr
  | "gu-IN" => some .guIn
  | "ha-NG" => some .haNg
  | "he-IL" => some .heIl
  | "hi-IN" => some .hiIn
  | "hu-HU" => some .huHu
  | "is-IS" => some .isIs
  | "id-ID" => some .idId
  | "it-IT" => some .itIt
  | "ja-JP" => some .jaJp
  | "kab-DZ" => some .kabDz
  | "kn-IN" => some .knIn
  | "kk-KZ" => some .kkKz
  | "rw-RW" => some .rwRw
  | "ko-KR" => some .koKr
  | "ky-KG" => some .kyKg
  | "lv-LV" => some .lvLv
  | "lt-LT" => some .ltLt
  | "lg-IN" => some .lgIn
  | "mk-MK" => some .mkMk
  | "ms-MY" => some .msMy
  | "ml-IN" => some .mlIn
  | "mt-MT" => some .mtMt
  | "mr-IN" => some .mrIn
  | "mhr-RU" => some .mhrRu
  | "mn-MN" => some .mnMn
  | "no-NO" => some .noNo
  | "or-IN" => some .orIn
  | "ps-AF" => some .psAf
  | "pl-PL" => some .plPl
  | "pt-PT" => some .ptPt
  | "pt-BR" => some .ptBr
  | "pa-IN" => some .paIn
  | "ro-RO" => some .roRo
  | "ru-RU" => some .ruRu
  | "sr-RS" => some .srRs
  | "si-LK" => some .siLk
  | "sk-SK" => some .skSk
  | "sl-SI" => some .slSi
  | "so-SO" => some .soSo
  | "es-ES" => some .esEs
  | "es-US" => some .esUs
  | "su-ID" => some .suId
  | "sw-KE" => some .swKe
  | "sw-BI" => some .swBi
  | "sw-RW" => some .swRw
  | "sw-TZ" => some .swTz
  | "sw-UG" => some .swUg
  | "sv-SE" => some .svSe
  | "tl-PH" => some .tlPh
  | "ta-IN" => some .taIn
  | "tt-RU" => some .ttRu
  | "te-IN" => some .teIn
  | "th-TH" => some .thTh
  | "tr-TR" => some .trTr
  | "uk-UA" => some .ukUa
  | "ug-CN" => some .ugCn
  | "uz-UZ" => some .uzUz
  | "vi-VN" => some .viVn
  | "cy-WL" => some .cyWl
  | "wo-SN" => some .woSn
  | "zu-ZA" => some .zuZa
  | _ => none

/-- `aws_sdk_transcribe::types::TranscriptionJobStatus`.  The SDK enum
has `Completed`, `Failed`, `InProgress`, `Queued` plus unknown variants;
`queued` is the status a job carries right after submission (the spec's
"Submitted"). -/
inductive TranscriptionJobStatus where
  | completed
  | failed
  | inProgress
  | queued
  | other (s : String)
deriving DecidableEq, Repr

/-- The `Transcript` record inside a transcription job. -/
structure TranscriptRec where
  transcript_file_uri : Option String
deriving DecidableEq, Repr

/-- The `TranscriptionJob` record of a `get_transcription_job` response. -/
structure TranscriptionJob where
  transcription_job_status : Option TranscriptionJobStatus
  transcript : Option TranscriptRec
  failure_reason : Option String
deriving DecidableEq, Repr

/-- A `GetTranscriptionJobOutput` (`job_details` in the source). -/
structure JobDetails where
  transcription_job : Option TranscriptionJob
deriving DecidableEq, Repr

/-- `job_details.transcription_job.as_ref().and_then(|j| j.transcription_job_status.as_ref())`. -/
def jobStatus (jd : JobDetails) : Option TranscriptionJobStatus :=
  jd.transcription_job.bind (fun j => j.transcription_job_status)

/-- `job_details.transcription_job.and_then(|j| j.transcript).and_then(|t| t.transcript_file_uri)`. -/
def jobTranscriptUri (jd : JobDetails) : Option String :=
  (jd.transcription_job.bind (fun j => j.transcript)).bind
    (fun t => t.transcript_file_uri)

/-- `job_details.transcription_job.and_then(|j| j.failure_reason)`. -/
def jobFailureReason (jd : JobDetails) : Option String :=
  jd.transcription_job.bind (fun j => j.failure_reason)

/-- The `while let Some(status)` polling loop of `transcribe_audio`
(src/transcribe.rs lines 196-227), with `cur` the most recent
`get_transcription_job` response and `rest` the responses the service
would give to further reads.  Returns `some (sleeps, refetches, final)`:
the recorded sleep durations (seconds), the number of re-fetches issued
inside the loop, and the `job_details` value the loop exits with;
`none` when the supplied response list is exhausted while the loop
still wants to poll.  Only `InProgress` continues the loop: `Completed`
breaks, and every other status falls to the catch-all `_ => break`. -/
def pollLoop (interval : Nat) (cur : JobDetails) : (rest : List JobDetails) →
    Option (List Nat × Nat × JobDetails)
  | [] =>
    match jobStatus cur with
    | none => some ([], 0, cur)
    | some .inProgress => none
    | some .completed => some ([], 0, cur)
    | some _ => some ([], 0, cur)
  | next :: rest' =>
    match jobStatus cur with
    | none => some ([], 0, cur)
    | some .inProgress =>
      match pollLoop (interval * 2) next rest' with
      | none => none
      | some (sleeps, reads, fin) => some (interval :: sleeps, reads + 1, fin)
    | some .completed => some ([], 0, cur)
    | some _ => some ([], 0, cur)

/-- Observable result of the orchestrator: `Ok(string)`, a propagated
`anyhow::Error`, or a panic reaching the caller. -/
inductive RunResult where
  | ok (s : String)
  | err (msg : String)
  | panicked (msg : String)
deriving DecidableEq, Repr

/-- The terminal `match` of `transcribe_audio`
(src/transcribe.rs lines 229-261) on the job details the polling loop
exited with.  `body` is the parsed transcript payload the code would
fetch from the transcript URI (see `convert_transcribe_json`).  Returns
the run result together with the `println!` lines it emits. -/
def finalize (jd : JobDetails) (body : Option JValue) :
    RunResult × List String :=
  match jobStatus jd with
  | some .completed =>
    match jobTranscriptUri jd with
    | some _uri =>
      match convert_transcribe_json body with
      | .ok t => (.ok t, [])
      | .parseError m => (.err m, [])
      | .panicked m => (.panicked m, [])
    | none =>
      (.ok "Transcript file URI is missing.", ["Transcript file URI is missing."])
  | some .failed =>
    match jobFailureReason jd with
    | some reason =>
      (.ok "Transcription job failed.", ["Transcription job failed: " ++ reason])
    | none =>
      (.ok "Transcription job failed.",
        ["Transcription job failed for an unknown reason."])
  | _ =>
    (.ok "Job ended with an unexpected status or status could not be determined.",
      [])

/-- Everything observable about one run of `transcribe_audio`: the
returned value, the printed diagnostics, the sleeps performed, the
number of `get_transcription_job` status reads, and the total number of
calls to the transcription (job) service, `start_transcription_job`
included. -/
structure RunTrace where
  result : RunResult
  printed : List String
  sleeps : List Nat
  statusReads : Nat
  jobServiceCalls : Nat
deriving DecidableEq, Repr

/-- `transcribe_audio` (src/transcribe.rs lines 15-262), with its
environment made explicit: `detect` is the `infer::get_from_path`
outcome, `ext` the lower-level file extension, `language_code` the CLI
language string, `responses` the successive `get_transcription_job`
responses (the first is the read issued right after submission), and
`body` the parsed transcript payload.  `none` when `responses` is too
short for the run to finish.  The media-format and language-code checks
run, in that order, before any job-service call. -/
def transcribe_audio (detect : DetectOutcome) (ext : Option String)
    (language_code : String) (responses : List JobDetails)
    (body : Option JValue) : Option RunTrace :=
  match mediaFormatOf detect ext with
  | .error e => some ⟨.err e, [], [], 0, 0⟩
  | .ok _mf =>
    match languageCodeEnum language_code with
    | none =>
      some ⟨.err ("\nUnsupported language code: " ++ language_code), [], [], 0, 0⟩
    | some _lc =>
      match responses with
      | [] => none
      | first :: rest =>
        match pollLoop 5 first rest with
        | none => none
        | some (sleeps, reads, fin) =>
          let rp := finalize fin body
          some ⟨rp.1, rp.2, sleeps, 1 + reads, 2 + reads⟩

/-- A result item of type `"pronunciation"` in the AWS Transcribe
payload shape: `type`, `alternatives[0].content`, `speaker_label`. -/
def mkPronItem (content speaker : String) : JValue :=
  .obj [("type", .str "pronunciation"),
        ("alternatives", .arr [.obj [("content", .str content)]]),
        ("speaker_label", .str speaker)]

/-- A result item of type `"punctuation"`: `type` and
`alternatives[0].content`, no speaker label. -/
def mkPunctItem (content : String) : JValue :=
  .obj [("type", .str "punctuation"),
        ("alternatives", .arr [.obj [("content", .str content)]])]

/-- A whole result payload: the item list under `results.items`. -/
def mkPayload (items : List JValue) : JValue :=
  .obj [("results", .obj [("items", .arr items)])]

/-- The reconstruction loop processes a concatenation left to right:
the second half runs only if the first half succeeds. -/
theorem processItems_append (st : ConvState) (l1 l2 : List JValue) :
    processItems st (l1 ++ l2) =
      match processItems st l1 with
      | .ok st' => processItems st' l2
      | .error e => .error e := by
  induction l1 generalizing st with
  | nil => simp [processItems]
  | cons x xs ih =>
    cases hpx : processItem st x with
    | error e => simp [processItems, hpx]
    | ok st' => simp [processItems, hpx, ih]

/-- C1 (counterexample): for a polling run whose single status read is
`Failed` with failure reason `"insufficient audio quality"`, the value
returned to the caller is the fixed string `"Transcription job
failed."`, and the failure reason is not contained in it — so the
returned outcome does not carry the exact failure reason string. -/
theorem c1_counterexample :
    transcribe_audio (.found "audio/mpeg") none "en-US"
        [⟨some ⟨some .failed, none, some "insufficient audio quality"⟩⟩] none =
      some ⟨.ok "Transcription job failed.",
        ["Transcription job failed: insufficient audio quality"], [], 1, 2⟩
    ∧ ¬ ("insufficient audio quality".toList <:+:
          "Transcription job failed.".toList) := by
  constructor
  · rfl
  · decide

/-- C1 (amended): for every polling run whose final status is `Failed`
with a present failure reason, the orchestrator prints
`"Transcription job failed: <reason>"` to stdout but returns the fixed
string `"Transcription job failed."` to the caller; the returned value
does not vary with the reason. -/
theorem c1_failed_reason_printed_not_returned (detect : DetectOutcome)
    (ext : Option String) (language_code : String) (first fin : JobDetails)
    (rest : List JobDetails) (body : Option JValue) (sleeps : List Nat)
    (reads : Nat) (mf : MediaFormat) (lc : LanguageCode) (reason : String)
    (hm : mediaFormatOf detect ext = .ok mf)
    (hl : languageCodeEnum language_code = some lc)
    (hp : pollLoop 5 first rest = some (sleeps, reads, fin))
    (hs : jobStatus fin = some .failed)
    (hr : jobFailureReason fin = some reason) :
    transcribe_audio detect ext language_code (first :: rest) body =
      some ⟨.ok "Transcription job failed.",
        ["Transcription job failed: " ++ reason], sleeps, 1 + reads, 2 + reads⟩ := by
  simp [transcribe_audio, hm, hl, hp, finalize, hs, hr]

/-- C1 (witness): the amended statement instantiated on a one-read run
failing with reason `"insufficient audio quality"`. -/
theorem c1_witness :
    transcribe_audio (.found "audio/mpeg") none "en-US"
        [⟨some ⟨some .failed, none, some "insufficient audio quality"⟩⟩] none =
      some ⟨.ok "Transcription job failed.",
        ["Transcription job failed: insufficient audio quality"], [], 1 + 0, 2 + 0⟩ :=
  c1_failed_reason_printed_not_returned (.found "audio/mpeg") none "en-US"
    ⟨some ⟨some .failed, none, some "insufficient audio quality"⟩⟩
    ⟨some ⟨some .failed, none, some "insufficient audio quality"⟩⟩
    [] none [] 0 .mp3 .enUs "insufficient audio quality" rfl rfl rfl rfl rfl

/-- C2 (counterexample): on a successfully parsed JSON document that
lacks `results.items` (here the empty object), `convert_transcribe_json`
panics (`unwrap` on `None`) instead of returning a ParseError. -/
theorem c2_counterexample :
    convert_transcribe_json (some (JValue.obj [])) = .panicked unwrapMsg := by
  rfl

/-- C2 (amended): a byte string that fails to parse as JSON yields the
ParseError `"Failed to parse JSON"`; but a parsed document without a
`results.items` array, or one whose first item lacks a string `type`
discriminator, makes `convert_transcribe_json` panic (`unwrap` on
`None`) rather than return a ParseError; none of these cases silently
produces an empty transcript. -/
theorem c2_parse_outcomes (v1 v2 item : JValue) (rest : List JValue)
    (h1 : asArray (jindexStr (jindexStr v1 "results") "items") = none)
    (h2 : asArray (jindexStr (jindexStr v2 "results") "items") = some (item :: rest))
    (h3 : itemType item = none) :
    convert_transcribe_json none = .parseError "Failed to parse JSON"
    ∧ convert_transcribe_json (some v1) = .panicked unwrapMsg
    ∧ convert_transcribe_json (some v2) = .panicked unwrapMsg := by
  refine ⟨rfl, by simp [convert_transcribe_json, h1], ?_⟩
  simp [convert_transcribe_json, h2, processItems, processItem, h3]

/-- C2 (witness): the amended statement instantiated on the empty
object (no `results.items`) and on a payload whose only item is the
empty object (no `type`). -/
theorem c2_witness :
    convert_transcribe_json none = .parseError "Failed to parse JSON"
    ∧ convert_transcribe_json (some (JValue.obj [])) = .panicked unwrapMsg
    ∧ convert_transcribe_json (some (mkPayload [JValue.obj []])) =
        .panicked unwrapMsg :=
  c2_parse_outcomes (JValue.obj []) (mkPayload [JValue.obj []])
    (JValue.obj []) [] rfl rfl rfl

/-- C3 (counterexample): on the status-read sequence starting with
`Queued` (the status a job has right after submission, the spec's
"Submitted"), the orchestrator performs no sleep and no re-fetch: it
issues exactly 1 status read and ends with the indeterminate-outcome
message, instead of continuing to poll as it does for `InProgress`. -/
theorem c3_counterexample :
    transcribe_audio (.found "audio/mpeg") none "en-US"
        [⟨some ⟨some .queued, none, none⟩⟩,
         ⟨some ⟨some .inProgress, none, none⟩⟩,
         ⟨some ⟨some .completed, some ⟨some "https://example.test"⟩, none⟩⟩]
        none =
      some ⟨.ok "Job ended with an unexpected status or status could not be determined.",
        [], [], 1, 2⟩ := by
  rfl

/-- C3 (amended): the polling loop continues (sleep, then re-fetch)
exactly while the observed status is `InProgress`; any other observed
status — `Queued`/Submitted included — exits the loop at once with no
sleep and no further read. -/
theorem c3_poll_only_inprogress (jd next : JobDetails)
    (rest : List JobDetails) (interval : Nat) :
    (jobStatus jd ≠ some .inProgress →
      pollLoop interval jd rest = some ([], 0, jd))
    ∧ (jobStatus jd = some .inProgress →
      pollLoop interval jd (next :: rest) =
        match pollLoop (interval * 2) next rest with
        | none => none
        | some (sleeps, reads, fin) =>
            some (interval :: sleeps, reads + 1, fin)) := by
  constructor
  · intro h
    cases hs : jobStatus jd with
    | none => cases rest <;> simp [pollLoop, hs]
    | some s =>
      cases s with
      | inProgress => exact absurd hs h
      | completed => cases rest <;> simp [pollLoop, hs]
      | failed => cases rest <;> simp [pollLoop, hs]
      | queued => cases rest <;> simp [pollLoop, hs]
      | other s => cases rest <;> simp [pollLoop, hs]
  · intro h
    rw [pollLoop, h]

/-- C3 (witness): the amended statement instantiated on a `Queued`
first read (loop exits at once) and on an `InProgress` first read
followed by `Completed` (exactly one more read, one sleep). -/
theorem c3_witness :
    pollLoop 5 ⟨some ⟨some .queued, none, none⟩⟩ [] =
      some ([], 0, ⟨some ⟨some .queued, none, none⟩⟩)
    ∧ pollLoop 5 ⟨some ⟨some .inProgress, none, none⟩⟩
        [⟨some ⟨some .completed, none, none⟩⟩] =
      some ([5], 0 + 1, ⟨some ⟨some .completed, none, none⟩⟩) := by
  constructor
  · exact (c3_poll_only_inprogress ⟨some ⟨some .queued, none, none⟩⟩
      ⟨none⟩ [] 5).1 (by decide)
  · have h := (c3_poll_only_inprogress ⟨some ⟨some .inProgress, none, none⟩⟩
      ⟨some ⟨some .completed, none, none⟩⟩ [] 5).2 rfl
    rw [h]
    rfl

/-- C4 (counterexample): for the payload
`[Punctuation("."), Word("Hi", speaker=B)]`, the reconstructor raises
no ParseError, but the output is exactly `"B: Hi\n"` — it contains no
`'.'`, so the orphan punctuation is not emitted as part of the first
line when the subsequent word establishes a speaker. -/
theorem c4_counterexample :
    convert_transcribe_json (some (mkPayload [mkPunctItem ".", mkPronItem "Hi" "B"])) =
      .ok "B: Hi\n"
    ∧ (("B: Hi\n").data.contains '.') = false := by
  exact ⟨rfl, rfl⟩

/-- C4 (amended): orphan punctuation before any word raises no
ParseError and is appended to the empty `currentText`; but when a
subsequent word event establishes a speaker (with `currentSpeaker`
still unset), `currentText` is overwritten with that word's content, so
the orphan punctuation is discarded, not emitted. -/
theorem c4_orphan_punctuation (p w : JValue) (c cw spk t : String)
    (hpt : itemType p = some "punctuation") (hpc : itemContent p = some c)
    (hwt : itemType w = some "pronunciation") (hwc : itemContent w = some cw)
    (hws : itemSpeaker w = some spk) :
    processItem ⟨"", none, ""⟩ p = .ok ⟨"", none, "" ++ c⟩
    ∧ processItem ⟨"", none, t⟩ w = .ok ⟨"", some spk, cw⟩ := by
  constructor
  · simp [processItem, hpt, hpc]
  · simp [processItem, hwt, hwc, hws]

/-- C4 (witness): the amended statement instantiated on
`Punctuation(".")` followed by `Word("Hi", speaker=B)`. -/
theorem c4_witness :
    processItem ⟨"", none, ""⟩ (mkPunctItem ".") = .ok ⟨"", none, "" ++ "."⟩
    ∧ processItem ⟨"", none, "."⟩ (mkPronItem "Hi" "B") = .ok ⟨"", some "B", "Hi"⟩ :=
  c4_orphan_punctuation (mkPunctItem ".") (mkPronItem "Hi" "B")
    "." "Hi" "B" "." rfl rfl rfl rfl rfl

/-- C5: for the status-read sequence
`[InProgress, InProgress, Completed]`, the orchestrator issues exactly
3 status reads, sleeping 5 time units before the second and 10 before
the third (initial interval 5, doubled after each non-terminal poll),
each loop iteration performing exactly one status read. -/
theorem c5_backoff_three_reads (detect : DetectOutcome) (ext : Option String)
    (language_code : String) (j1 j2 j3 : JobDetails) (body : Option JValue)
    (mf : MediaFormat) (lc : LanguageCode)
    (hm : mediaFormatOf detect ext = .ok mf)
    (hl : languageCodeEnum language_code = some lc)
    (h1 : jobStatus j1 = some .inProgress)
    (h2 : jobStatus j2 = some .inProgress)
    (h3 : jobStatus j3 = some .completed) :
    transcribe_audio detect ext language_code [j1, j2, j3] body =
      some ⟨(finalize j3 body).1, (finalize j3 body).2, [5, 10], 3, 4⟩ := by
  have hp : pollLoop 5 j1 [j2, j3] = some ([5, 10], 2, j3) := by
    rw [pollLoop, h1, pollLoop, h2, pollLoop, h3]
  simp [transcribe_audio, hm, hl, hp]

/-- C5 (witness): the statement instantiated on two `InProgress` reads
followed by a `Completed` read without a transcript URI. -/
theorem c5_witness :
    transcribe_audio (.found "audio/mpeg") none "en-US"
        [⟨some ⟨some .inProgress, none, none⟩⟩,
         ⟨some ⟨some .inProgress, none, none⟩⟩,
         ⟨some ⟨some .completed, none, none⟩⟩] none =
      some ⟨(finalize ⟨some ⟨some .completed, none, none⟩⟩ none).1,
        (finalize ⟨some ⟨some .completed, none, none⟩⟩ none).2, [5, 10], 3, 4⟩ :=
  c5_backoff_three_reads (.found "audio/mpeg") none "en-US"
    ⟨some ⟨some .inProgress, none, none⟩⟩
    ⟨some ⟨some .inProgress, none, none⟩⟩
    ⟨some ⟨some .completed, none, none⟩⟩ none .mp3 .enUs rfl rfl rfl rfl rfl

/-- C6: for the event sequence `[Word("Hello", A), Word("there", A),
Punctuation("."), Word("Hi", B), Punctuation("!")]`, the reconstructor
returns exactly `"A: Hello there.\nB: Hi!\n"`: same-speaker words joined
by one space, punctuation attached with no separator, a speaker change
starting a new line seeded with the boundary word, each line rendered
as `"speaker: text"` plus a newline. -/
theorem c6_end_to_end :
    convert_transcribe_json (some (mkPayload
      [mkPronItem "Hello" "A", mkPronItem "there" "A", mkPunctItem ".",
       mkPronItem "Hi" "B", mkPunctItem "!"])) =
      .ok "A: Hello there.\nB: Hi!\n" := by
  rfl

/-- C7: for every polling run ending `Completed` whose job record has
no transcript file URI, the orchestrator returns the normal (`Ok`)
result `"Transcript file URI is missing."` — no crash, no propagated
error. -/
theorem c7_missing_uri (detect : DetectOutcome) (ext : Option String)
    (language_code : String) (first fin : JobDetails)
    (rest : List JobDetails) (body : Option JValue) (sleeps : List Nat)
    (reads : Nat) (mf : MediaFormat) (lc : LanguageCode)
    (hm : mediaFormatOf detect ext = .ok mf)
    (hl : languageCodeEnum language_code = some lc)
    (hp : pollLoop 5 first rest = some (sleeps, reads, fin))
    (hs : jobStatus fin = some .completed)
    (hu : jobTranscriptUri fin = none) :
    transcribe_audio detect ext language_code (first :: rest) body =
      some ⟨.ok "Transcript file URI is missing.",
        ["Transcript file URI is missing."], sleeps, 1 + reads, 2 + reads⟩ := by
  simp [transcribe_audio, hm, hl, hp, finalize, hs, hu]

/-- C7 (witness): the statement instantiated on a single `Completed`
read with no transcript record. -/
theorem c7_witness :
    transcribe_audio (.found "audio/mpeg") none "en-US"
        [⟨some ⟨some .completed, none, none⟩⟩] none =
      some ⟨.ok "Transcript file URI is missing.",
        ["Transcript file URI is missing."], [], 1 + 0, 2 + 0⟩ :=
  c7_missing_uri (.found "audio/mpeg") none "en-US"
    ⟨some ⟨some .completed, none, none⟩⟩
    ⟨some ⟨some .completed, none, none⟩⟩ [] none [] 0 .mp3 .enUs
    rfl rfl rfl rfl rfl

/-- C8: whenever the reconstruction loop reaches a token that is a word
(pronunciation) lacking its content text, a word lacking its speaker
label, or a punctuation token lacking its content text, the whole
reconstruction fails with a ParseError — the token is never silently
skipped. -/
theorem c8_missing_fields_error (v item : JValue) (pre rest : List JValue)
    (st' : ConvState)
    (hv : asArray (jindexStr (jindexStr v "results") "items") =
      some (pre ++ item :: rest))
    (hpre : processItems ⟨"", none, ""⟩ pre = .ok st')
    (hbad : (itemType item = some "pronunciation" ∧ itemContent item = none)
      ∨ (itemType item = some "pronunciation" ∧ (∃ c, itemContent item = some c)
          ∧ itemSpeaker item = none)
      ∨ (itemType item = some "punctuation" ∧ itemContent item = none)) :
    ∃ m, convert_transcribe_json (some v) = .parseError m := by
  have hitem : ∃ m, processItem st' item = .error (.parseErr m) := by
    rcases hbad with ⟨hty, hc⟩ | ⟨hty, ⟨c, hc⟩, hs⟩ | ⟨hty, hc⟩
    · exact ⟨"Missing pronunciation content data", by simp [processItem, hty, hc]⟩
    · exact ⟨"Missing 'speaker_label' data", by simp [processItem, hty, hc, hs]⟩
    · exact ⟨"Missing punctuation content data", by simp [processItem, hty, hc]⟩
  obtain ⟨m, hm⟩ := hitem
  refine ⟨m, ?_⟩
  simp [convert_transcribe_json, hv, processItems_append, hpre, processItems, hm]

/-- C8 (witness): the statement instantiated on a payload whose single
item is a pronunciation token with content but no `speaker_label`. -/
theorem c8_witness :
    ∃ m, convert_transcribe_json (some (mkPayload
      [JValue.obj [("type", .str "pronunciation"),
        ("alternatives", .arr [.obj [("content", .str "Hi")]])]])) =
      .parseError m :=
  c8_missing_fields_error
    (mkPayload [JValue.obj [("type", .str "pronunciation"),
      ("alternatives", .arr [.obj [("content", .str "Hi")]])]])
    (JValue.obj [("type", .str "pronunciation"),
      ("alternatives", .arr [.obj [("content", .str "Hi")]])])
    [] [] ⟨"", none, ""⟩ rfl rfl
    (Or.inr (Or.inl ⟨rfl, ⟨"Hi", rfl⟩, rfl⟩))

/-- C9: for every language code outside the enumerated supported set,
`transcribe_audio` fails with an input error before submitting the job:
the run makes zero calls to the transcription job service. -/
theorem c9_unsupported_language (language_code : String)
    (h : languageCodeEnum language_code = none) (detect : DetectOutcome)
    (ext : Option String) (responses : List JobDetails)
    (body : Option JValue) :
    ∃ msg, transcribe_audio detect ext language_code responses body =
      some ⟨.err msg, [], [], 0, 0⟩ := by
  unfold transcribe_audio
  cases hm : mediaFormatOf detect ext with
  | error e => exact ⟨e, rfl⟩
  | ok mf =>
    exact ⟨"\nUnsupported language code: " ++ language_code, by rw [h]⟩

/-- C9 (witness): the statement instantiated on the unsupported code
`"xx-YY"`. -/
theorem c9_witness :
    ∃ msg, transcribe_audio (.found "audio/mpeg") none "xx-YY"
      [⟨some ⟨some .inProgress, none, none⟩⟩] none =
      some ⟨.err msg, [], [], 0, 0⟩ :=
  c9_unsupported_language "xx-YY" rfl (.found "audio/mpeg") none
    [⟨some ⟨some .inProgress, none, none⟩⟩] none

/-- C10: when the detected MIME type is unrecognized, or no type is
detected at all, the media format still resolves to `Mp3` if the file
extension is exactly `"mp3"`, and only fails (before submission) when
that extension fallback does not apply. -/
theorem c10_mp3_fallback (mime : String) (ext : Option String)
    (h : recognizedMime mime = none) :
    (mediaFormatOf (.found mime) (some "mp3") = .ok .mp3)
    ∧ (ext ≠ some "mp3" → mediaFormatOf (.found mime) ext =
        .error ("\nUnsupported media format: " ++ mime))
    ∧ (mediaFormatOf .notFound (some "mp3") = .ok .mp3)
    ∧ (ext ≠ some "mp3" → mediaFormatOf .notFound ext =
        .error "\nUnable to determine media format from file extension") := by
  refine ⟨?_, ?_, ?_, ?_⟩
  · simp [mediaFormatOf, h]
  · intro hne
    cases ext with
    | none => simp [mediaFormatOf, h]
    | some s =>
      have hs : s ≠ "mp3" := fun e => hne (by rw [e])
      simp [mediaFormatOf, h, hs]
  · rfl
  · intro hne
    cases ext with
    | none => rfl
    | some s =>
      have hs : s ≠ "mp3" := fun e => hne (by rw [e])
      simp [mediaFormatOf, hs]

/-- C10 (witness): the statement instantiated on the unrecognized MIME
type `"application/zip"` with extensions `"mp3"` and `"wav"`, and on
the no-detection case with extensions `"mp3"` and none. -/
theorem c10_witness :
    (mediaFormatOf (.found "application/zip") (some "mp3") = .ok .mp3)
    ∧ (mediaFormatOf (.found "application/zip") (some "wav") =
        .error ("\nUnsupported media format: " ++ "application/zip"))
    ∧ (mediaFormatOf .notFound (some "mp3") = .ok .mp3)
    ∧ (mediaFormatOf .notFound none =
        .error "\nUnable to determine media format from file extension") :=
  ⟨(c10_mp3_fallback "application/zip" (some "wav") rfl).1,
   (c10_mp3_fallback "application/zip" (some "wav") rfl).2.1 (by decide),
   (c10_mp3_fallback "application/zip" none rfl).2.2.1,
   (c10_mp3_fallback "application/zip" none rfl).2.2.2 (by decide)⟩

end DistillCli
